import Mathlib

/-!
Shallow embedding of the two source files of the repository
`hpp-corbaserver` (python):

* `src/hpp/corbaserver/__init__.py` — the facade module: it calls
  `omniORB.updateModule`, imports five generated IDL stub modules, and
  binds a handful of names (re-exports from local submodules plus one
  attribute alias).
* `tests/robot.py` — a smoke-test script: it constructs a `Client`,
  issues five remote calls on its `.robot` sub-handle, then constructs
  a `Robot` facade object.

The module bodies are embedded as ordered lists of statements translated
line by line from the source; execution of the test script is given a
small operational semantics parameterised by oracles for remote-call
failure and remote-call return values.
-/

namespace HppCorba

/-- Statements of the facade module body `src/hpp/corbaserver/__init__.py`,
in source order. `importMod` is a plain `import`, `moduleCall` is a call of
a function attribute of an imported module with one string argument,
`fromImportLocal` is `from .sub import names`, and `assignAttr` binds a
module-level name to an attribute path of another module. -/
inductive InitStmt where
  | importMod (name : String)
  | moduleCall (module fn arg : String)
  | fromImportLocal (submodule : String) (names : List String)
  | assignAttr (name : String) (srcModule : String) (path : List String)
deriving DecidableEq

/-- The body of `src/hpp/corbaserver/__init__.py`, statement by statement. -/
def initBody : List InitStmt := [
  .importMod "omniORB",
  .moduleCall "omniORB" "updateModule" "hpp.corbaserver",
  .importMod "robot_idl",
  .importMod "common_idl",
  .importMod "obstacle_idl",
  .importMod "problem_idl",
  .importMod "server_idl_idl",
  .fromImportLocal "client" ["Client"],
  .fromImportLocal "robot" ["Robot"],
  .assignAttr "Transform" "common_idl" ["_0_hpp", "Transform"],
  .fromImportLocal "problem_solver" ["ProblemSolver", "newProblem", "loadServerPlugin"],
  .fromImportLocal "benchmark" ["Benchmark"]
]

/-- Names of the modules imported by plain `import` statements, in order. -/
def importedModules (body : List InitStmt) : List String :=
  body.filterMap fun s => match s with
    | .importMod n => some n
    | _ => none

/-- A module name denotes a generated IDL stub module exactly when it ends
in the suffix `_idl` (the naming convention of the generated stubs); the
check is on the character lists of the two strings. -/
def isStubName (n : String) : Bool := "_idl".data.isSuffixOf n.data

/-- The generated stub modules imported by the body, in order. -/
def stubImports (body : List InitStmt) : List String :=
  (importedModules body).filter isStubName

/-- Names re-exported from the local submodules by `from .sub import`
statements, in order. -/
def localReExports (body : List InitStmt) : List String :=
  body.flatMap fun s => match s with
    | .fromImportLocal _ ns => ns
    | _ => []

/-- All module-level names bound by the body (re-exports and attribute
aliases), in order. -/
def boundNames (body : List InitStmt) : List String :=
  body.flatMap fun s => match s with
    | .fromImportLocal _ ns => ns
    | .assignAttr n _ _ => [n]
    | _ => []

/-- The value a binding statement associates to a name: either the object
imported from a local submodule under a given name, or the very attribute
of another module named by a path (an alias: nothing is wrapped, copied or
renamed, the reference itself is bound). -/
inductive BindingValue where
  | localObject (submodule name : String)
  | attrAlias (srcModule : String) (path : List String)
deriving DecidableEq

/-- The bindings produced by running the body, in order. -/
def moduleBindings (body : List InitStmt) : List (String × BindingValue) :=
  body.flatMap fun s => match s with
    | .fromImportLocal m ns => ns.map fun n => (n, BindingValue.localObject m n)
    | .assignAttr n m p => [(n, BindingValue.attrAlias m p)]
    | _ => []

/-- The five names the spec says the facade re-exports. -/
def facadeFive : List String := ["Client", "Robot", "ProblemSolver", "Benchmark", "Transform"]

/-- Claim C1 as stated: the five names are all bound in the module, and no
name other than these five is re-exported from the local submodules. -/
def ClaimC1 : Prop :=
  (∀ n ∈ facadeFive, n ∈ boundNames initBody) ∧
  (∀ n ∈ localReExports initBody, n ∈ facadeFive)

/-- Statement predicate: is the statement an import of a generated stub
module? -/
def isStubImport : InitStmt → Bool
  | .importMod n => isStubName n
  | _ => false

/-- Statement predicate: does the statement bind a module-level name
(a re-export from a local submodule or an attribute alias)? -/
def isBindingStmt : InitStmt → Bool
  | .fromImportLocal _ _ => true
  | .assignAttr _ _ _ => true
  | _ => false

/-- Statement predicate: is the statement the `omniORB.updateModule` call? -/
def isUpdateModuleCall : InitStmt → Bool
  | .moduleCall _ f _ => f == "updateModule"
  | _ => false

/-- Default statement used with `List.getD` when indexing the body. -/
def dfltInitStmt : InitStmt := .importMod "omniORB"

/-- Python literal values occurring in the test script: string literals,
integer literals, a decimal literal `mant * 10 ^ (-exp10)` (the script's
`0.001` is `dec 1 3`), lists of integer literals, and (for the execution
environment) an object constructed from a named class. -/
inductive PyVal where
  | str (s : String)
  | int (n : Int)
  | dec (mant : Int) (exp10 : Nat)
  | intList (xs : List Int)
  | obj (cls : String)
deriving DecidableEq

/-- A remote-object method invocation of the test script: the local
variable holding the client, the sub-handle attribute on which the method
is looked up, the method name, the positional arguments, and the keyword
arguments (name/value pairs). -/
structure RemoteCall where
  objVar : String
  handle : String
  method : String
  posArgs : List PyVal
  kwArgs : List (String × PyVal)
deriving DecidableEq

/-- Simple (non-compound) statements of the test script: a `from … import`
statement, a constructor call assigned to a variable, a remote-object call
whose result is assigned to `target` when `target = some x` and discarded
when `target = none`, and an `assert lhs == rhs` comparison against an
expected value. -/
inductive FlatStmt where
  | fromImport (module : String) (names : List String)
  | construct (target cls : String) (posArgs : List PyVal) (kwArgs : List (String × PyVal))
  | remoteCall (target : Option String) (call : RemoteCall)
  | assertCmp (lhs rhs : PyVal)
deriving DecidableEq

/-- Script statements: a simple statement, or a `try LIST except: LIST`
block wrapping simple statements in an exception handler. -/
inductive RStmt where
  | plain (s : FlatStmt)
  | tryExcept (body handler : List FlatStmt)
deriving DecidableEq

/-- The five remote calls of `tests/robot.py`, each on the `.robot`
sub-handle of the variable `cl`, with their literal arguments. -/
def createRobotCall : RemoteCall :=
  ⟨"cl", "robot", "createRobot", [.str "test"], []⟩

/-- The `appendJoint` call of `tests/robot.py`. -/
def appendJointCall : RemoteCall :=
  ⟨"cl", "robot", "appendJoint",
   [.str "test", .str "", .str "root_joint", .str "planar", .intList [0, 0, 0, 0, 0, 0, 1]],
   []⟩

/-- The `createSphere` call of `tests/robot.py` (its second argument is the
decimal literal `0.001`). -/
def createSphereCall : RemoteCall :=
  ⟨"cl", "robot", "createSphere", [.str "root_body", .dec 1 3], []⟩

/-- The `addObjectToJoint` call of `tests/robot.py`. -/
def addObjectToJointCall : RemoteCall :=
  ⟨"cl", "robot", "addObjectToJoint",
   [.str "test", .str "root_joint", .str "root_body", .intList [0, 0, 1, 0, 0, 0, 1]],
   []⟩

/-- The `setRobot` call of `tests/robot.py`. -/
def setRobotCall : RemoteCall :=
  ⟨"cl", "robot", "setRobot", [.str "test"], []⟩

/-- The remote calls of the script in source order. -/
def scriptCalls : List RemoteCall :=
  [createRobotCall, appendJointCall, createSphereCall, addObjectToJointCall, setRobotCall]

/-- The body of `tests/robot.py`, statement by statement. Every remote
call is an expression statement (`target = none`: its return value is
discarded), and no statement is a `try/except` block or an assertion. -/
def robotScript : List RStmt := [
  .plain (.fromImport "hpp.corbaserver" ["Client"]),
  .plain (.construct "cl" "Client" [] []),
  .plain (.remoteCall none createRobotCall),
  .plain (.remoteCall none appendJointCall),
  .plain (.remoteCall none createSphereCall),
  .plain (.remoteCall none addObjectToJointCall),
  .plain (.remoteCall none setRobotCall),
  .plain (.fromImport "hpp.corbaserver.robot" ["Robot"]),
  .plain (.construct "robot" "Robot" [] [])
]

/-- Observable events of a script run: construction of an object bound to
a variable, and the issuing of a remote call. -/
inductive SEvent where
  | constructed (target cls : String)
  | called (c : RemoteCall)
deriving DecidableEq

/-- Result of running the script: the events in order, the final variable
environment, and whether an uncaught exception propagated to the caller. -/
structure ExecResult where
  events : List SEvent
  env : List (String × PyVal)
  raised : Bool
deriving DecidableEq

/-- Execute one simple statement. The oracle `fail` says which remote
calls raise; the oracle `ret` gives the value a succeeding remote call
returns. A raising call is issued (its event is recorded) and the
exception is signalled by the `Bool` component; a succeeding call binds
its return value only when the statement assigns it to a target. -/
def execFlat (fail : RemoteCall → Bool) (ret : RemoteCall → PyVal)
    (env : List (String × PyVal)) :
    FlatStmt → List SEvent × List (String × PyVal) × Bool
  | .fromImport _ _ => ([], env, false)
  | .construct t cls _ _ => ([.constructed t cls], (t, .obj cls) :: env, false)
  | .remoteCall t c =>
    if fail c then ([.called c], env, true)
    else
      match t with
      | some x => ([.called c], (x, ret c) :: env, false)
      | none => ([.called c], env, false)
  | .assertCmp _ _ => ([], env, false)

/-- Execute a sequence of simple statements; an exception aborts the rest
of the sequence. -/
def execFlatSeq (fail : RemoteCall → Bool) (ret : RemoteCall → PyVal)
    (env : List (String × PyVal)) :
    List FlatStmt → List SEvent × List (String × PyVal) × Bool
  | [] => ([], env, false)
  | s :: rest =>
    match execFlat fail ret env s with
    | (evs, env1, true) => (evs, env1, true)
    | (evs, env1, false) =>
      match execFlatSeq fail ret env1 rest with
      | (evs2, env2, r) => (evs ++ evs2, env2, r)

/-- Execute one script statement. A `try/except` block runs its body;
if the body raises, the exception is caught and the handler runs. -/
def execStmt (fail : RemoteCall → Bool) (ret : RemoteCall → PyVal)
    (env : List (String × PyVal)) :
    RStmt → List SEvent × List (String × PyVal) × Bool
  | .plain s => execFlat fail ret env s
  | .tryExcept body handler =>
    match execFlatSeq fail ret env body with
    | (evs, env1, true) =>
      match execFlatSeq fail ret env1 handler with
      | (evs2, env2, r) => (evs ++ evs2, env2, r)
    | (evs, env1, false) => (evs, env1, false)

/-- Execute a sequence of script statements; an uncaught exception aborts
the rest of the sequence and propagates. -/
def execSeq (fail : RemoteCall → Bool) (ret : RemoteCall → PyVal)
    (env : List (String × PyVal)) :
    List RStmt → List SEvent × List (String × PyVal) × Bool
  | [] => ([], env, false)
  | s :: rest =>
    match execStmt fail ret env s with
    | (evs, env1, true) => (evs, env1, true)
    | (evs, env1, false) =>
      match execSeq fail ret env1 rest with
      | (evs2, env2, r) => (evs ++ evs2, env2, r)

/-- Run `tests/robot.py` from an empty environment under the two oracles. -/
def execScript (fail : RemoteCall → Bool) (ret : RemoteCall → PyVal) : ExecResult :=
  match execSeq fail ret [] robotScript with
  | (evs, env, r) => ⟨evs, env, r⟩

/-- The failure oracle under which every remote call succeeds. -/
def noFail : RemoteCall → Bool := fun _ => false

/-- A fixed return-value oracle. -/
def ret0 : RemoteCall → PyVal := fun _ => .int 0

/-- The remote calls recorded in an event list, in order. -/
def calledEvents (evs : List SEvent) : List RemoteCall :=
  evs.filterMap fun e => match e with
    | .called c => some c
    | _ => none

/-- Statement predicate: is the statement a `try/except` block? -/
def isTryExceptStmt : RStmt → Bool
  | .tryExcept _ _ => true
  | .plain _ => false

/-- Number of `try/except` blocks in a script. -/
def countTryExcept (l : List RStmt) : Nat := (l.filter isTryExceptStmt).length

/-- Simple-statement predicate: is the statement an assertion comparing
against an expected value? -/
def isAssertStmt : FlatStmt → Bool
  | .assertCmp _ _ => true
  | _ => false

/-- Number of assertion statements in a script, handlers included. -/
def countAsserts (l : List RStmt) : Nat :=
  (l.map fun s => match s with
    | .plain f => if isAssertStmt f then 1 else 0
    | .tryExcept b h => (b.filter isAssertStmt).length + (h.filter isAssertStmt).length).sum

/-- The remote call of a simple statement, if it is one. -/
def flatRemote : FlatStmt → Option RemoteCall
  | .remoteCall _ c => some c
  | _ => none

/-- All remote calls appearing in a script, handlers included, in order. -/
def remoteCallsOf (l : List RStmt) : List RemoteCall :=
  l.flatMap fun s => match s with
    | .plain f => (flatRemote f).toList
    | .tryExcept b h => b.filterMap flatRemote ++ h.filterMap flatRemote

/-- The targets of the script's remote-call statements: `none` for a call
whose return value is discarded. -/
def remoteTargets (l : List RStmt) : List (Option String) :=
  l.flatMap fun s => match s with
    | .plain (.remoteCall t _) => [t]
    | _ => []

/-- The positional argument of a remote call at an index. -/
def argAt (c : RemoteCall) (i : Nat) : Option PyVal := c.posArgs.get? i

/-- The integer-list (configuration) positional arguments of a remote call. -/
def configArgs (c : RemoteCall) : List (List Int) :=
  c.posArgs.filterMap fun v => match v with
    | .intList xs => some xs
    | _ => none

/-- All configuration arguments passed by the script's remote calls. -/
def scriptConfigs : List (List Int) := scriptCalls.flatMap configArgs

/-- Sum of squares of a list of integers, in exact integer arithmetic. -/
def sumSquares (xs : List Int) : Int := (xs.map fun x => x * x).sum

/-- The last four components of a configuration (its quaternion part). -/
def quatPart (xs : List Int) : List Int := xs.drop (xs.length - 4)

/-- C1, counterexample: the claim that the set of names re-exported for
client use is exactly \x7bClient, Robot, ProblemSolver, Benchmark,
Transform\x7d is false: the facade module also re-exports `newProblem`
from the local submodule `.problem_solver`, and `newProblem` is not among
the five names. -/
theorem facade_exports_claim_false :
    "newProblem" ∈ localReExports initBody ∧ "newProblem" ∉ facadeFive ∧ ¬ ClaimC1 := by
  refine ⟨by decide, by decide, fun hc => ?_⟩
  exact absurd (hc.2 "newProblem" (by decide)) (by decide)

/-- C1, amended: every one of the five names Client, Robot, ProblemSolver,
Benchmark, Transform is bound in the facade module, but the names
re-exported from the local submodules are exactly Client, Robot,
ProblemSolver, newProblem, loadServerPlugin, Benchmark — the module
additionally re-exports `newProblem` and `loadServerPlugin` from
`.problem_solver`, and `Transform` is bound by an attribute alias from the
generated module rather than re-exported from a local submodule. -/
theorem facade_exports_amended :
    facadeFive.all (fun n => (boundNames initBody).contains n) = true ∧
    localReExports initBody =
      ["Client", "Robot", "ProblemSolver", "newProblem", "loadServerPlugin", "Benchmark"] := by
  decide

/-- C2: running the test script (all remote calls succeeding) produces
exactly the event sequence: construct `Client` into `cl` first, then the
five remote calls createRobot, appendJoint, createSphere,
addObjectToJoint, setRobot in that order, then construct the `Robot`
facade object after the last remote call; and every one of the five calls
is issued on the `.robot` sub-handle of `cl`. -/
theorem robot_script_trace :
    (execScript noFail ret0).events =
      [.constructed "cl" "Client",
       .called createRobotCall, .called appendJointCall, .called createSphereCall,
       .called addObjectToJointCall, .called setRobotCall,
       .constructed "robot" "Robot"] ∧
    scriptCalls.map RemoteCall.method =
      ["createRobot", "appendJoint", "createSphere", "addObjectToJoint", "setRobot"] ∧
    scriptCalls.all (fun c => c.objVar == "cl" && c.handle == "robot") = true := by
  decide

/-- C3: the facade module imports exactly five generated stub modules,
namely robot_idl, common_idl, obstacle_idl, problem_idl, server_idl_idl,
and its only other plain import, omniORB, is not a stub module, so no
other generated stub module is imported. -/
theorem stub_imports_exactly_five :
    stubImports initBody =
      ["robot_idl", "common_idl", "obstacle_idl", "problem_idl", "server_idl_idl"] ∧
    (stubImports initBody).length = 5 ∧
    importedModules initBody = "omniORB" :: stubImports initBody := by
  decide

/-- C4: the name `Transform` is bound exactly once in the facade module,
and its binding is the direct attribute alias of the generated module's
type `common_idl._0_hpp.Transform` — the reference itself, with no
wrapping, copying, or renaming transformation applied. -/
theorem transform_is_alias :
    (moduleBindings initBody).lookup "Transform" =
      some (BindingValue.attrAlias "common_idl" ["_0_hpp", "Transform"]) ∧
    (moduleBindings initBody).filter (fun p => p.1 == "Transform") =
      [("Transform", BindingValue.attrAlias "common_idl" ["_0_hpp", "Transform"])] := by
  decide

/-- C5: the test script contains no `try/except` block, so for every
failure oracle, if the remote call at position `i` raises while all
earlier remote calls succeed, the exception propagates to the caller
(`raised = true`) and the calls issued are exactly the first `i + 1`
calls of the script: no subsequent remote call executes. -/
theorem failing_call_aborts_script
    (fail : RemoteCall → Bool) (ret : RemoteCall → PyVal) (i : Nat)
    (hi : i < scriptCalls.length)
    (hf : fail (scriptCalls.getD i createRobotCall) = true)
    (hb : ∀ j, j < i → fail (scriptCalls.getD j createRobotCall) = false) :
    countTryExcept robotScript = 0 ∧
    (execScript fail ret).raised = true ∧
    calledEvents (execScript fail ret).events = scriptCalls.take (i + 1) := by
  refine ⟨by decide, ?_⟩
  have hi5 : i < 5 := by simpa [scriptCalls] using hi
  interval_cases i
  · simp only [scriptCalls, List.getD_cons_zero] at hf
    simp [execScript, execSeq, execStmt, execFlat, robotScript, hf, calledEvents, scriptCalls]
  · have h0 := hb 0 (by norm_num)
    simp only [scriptCalls, List.getD_cons_zero, List.getD_cons_succ] at hf h0
    simp [execScript, execSeq, execStmt, execFlat, robotScript, hf, h0, calledEvents, scriptCalls]
  · have h0 := hb 0 (by norm_num)
    have h1 := hb 1 (by norm_num)
    simp only [scriptCalls, List.getD_cons_zero, List.getD_cons_succ] at hf h0 h1
    simp [execScript, execSeq, execStmt, execFlat, robotScript, hf, h0, h1, calledEvents,
      scriptCalls]
  · have h0 := hb 0 (by norm_num)
    have h1 := hb 1 (by norm_num)
    have h2 := hb 2 (by norm_num)
    simp only [scriptCalls, List.getD_cons_zero, List.getD_cons_succ] at hf h0 h1 h2
    simp [execScript, execSeq, execStmt, execFlat, robotScript, hf, h0, h1, h2, calledEvents,
      scriptCalls]
  · have h0 := hb 0 (by norm_num)
    have h1 := hb 1 (by norm_num)
    have h2 := hb 2 (by norm_num)
    have h3 := hb 3 (by norm_num)
    simp only [scriptCalls, List.getD_cons_zero, List.getD_cons_succ] at hf h0 h1 h2 h3
    simp [execScript, execSeq, execStmt, execFlat, robotScript, hf, h0, h1, h2, h3, calledEvents,
      scriptCalls]

/-- Witness for C5: under the oracle that fails exactly the
`createSphere` call (position 2), the run raises and issues exactly the
first three calls. -/
theorem failing_call_aborts_script_witness :
    (2 < scriptCalls.length ∧
      (fun c => c == createSphereCall) (scriptCalls.getD 2 createRobotCall) = true ∧
      ∀ j, j < 2 → (fun c => c == createSphereCall) (scriptCalls.getD j createRobotCall) = false) ∧
    (countTryExcept robotScript = 0 ∧
      (execScript (fun c => c == createSphereCall) ret0).raised = true ∧
      calledEvents (execScript (fun c => c == createSphereCall) ret0).events =
        scriptCalls.take (2 + 1)) :=
  ⟨⟨by decide, by decide, by decide⟩,
   failing_call_aborts_script (fun c => c == createSphereCall) ret0 2
     (by decide) (by decide) (by decide)⟩

/-- C6: the test script contains no assertion and no comparison against
an expected value, the return value of every remote call is discarded
(no remote-call statement assigns its result), and the run of the script
— its events, environment and outcome — is independent of the
return-value oracle when every call succeeds. -/
theorem robot_script_discards_returns :
    countAsserts robotScript = 0 ∧
    remoteTargets robotScript = [none, none, none, none, none] ∧
    ∀ r1 r2 : RemoteCall → PyVal, execScript noFail r1 = execScript noFail r2 := by
  exact ⟨by decide, by decide, fun r1 r2 => rfl⟩

/-- Witness for C6: two concrete return-value oracles yield identical
runs of the script. -/
theorem robot_script_discards_returns_witness :
    execScript noFail ret0 = execScript noFail (fun _ => PyVal.str "x") :=
  robot_script_discards_returns.2.2 ret0 (fun _ => PyVal.str "x")

/-- C7: the remote calls appearing in the test script are exactly the
five script calls, and every one of them passes all of its arguments
positionally: each keyword-argument list is empty. -/
theorem remote_calls_all_positional :
    remoteCallsOf robotScript = scriptCalls ∧
    scriptCalls.map RemoteCall.kwArgs = [[], [], [], [], []] := by
  decide

/-- C8: in the facade module body, the `omniORB.updateModule` call is the
statement at index 1, and every import of a generated stub module and
every statement binding a re-exported name sits at a strictly later
index, so on every import of the module the call executes before any
stub import and before any name is re-exported. -/
theorem updateModule_runs_first (i : Nat)
    (h : isStubImport (initBody.getD i dfltInitStmt) = true ∨
         isBindingStmt (initBody.getD i dfltInitStmt) = true) :
    initBody.findIdx isUpdateModuleCall = 1 ∧ 1 < i := by
  refine ⟨by decide, ?_⟩
  match i, h with
  | 0, h => exact absurd h (by decide)
  | 1, h => exact absurd h (by decide)
  | n + 2, _ => omega

/-- Witness for C8: the statement at index 2 is a stub import, and it
comes strictly after the `omniORB.updateModule` call at index 1. -/
theorem updateModule_runs_first_witness :
    (isStubImport (initBody.getD 2 dfltInitStmt) = true ∨
     isBindingStmt (initBody.getD 2 dfltInitStmt) = true) ∧
    (initBody.findIdx isUpdateModuleCall = 1 ∧ 1 < 2) :=
  ⟨Or.inl (by decide), updateModule_runs_first 2 (Or.inl (by decide))⟩

/-- C9: the script uses each entity name consistently: the robot name
argument of appendJoint, addObjectToJoint and setRobot is the same string
"test" passed to createRobot, the joint name argument of addObjectToJoint
is the same string "root_joint" passed to appendJoint, and the body name
argument of addObjectToJoint is the same string "root_body" passed to
createSphere. -/
theorem script_names_consistent :
    argAt createRobotCall 0 = some (.str "test") ∧
    argAt appendJointCall 0 = argAt createRobotCall 0 ∧
    argAt setRobotCall 0 = argAt createRobotCall 0 ∧
    argAt addObjectToJointCall 0 = argAt createRobotCall 0 ∧
    argAt appendJointCall 2 = some (.str "root_joint") ∧
    argAt addObjectToJointCall 1 = argAt appendJointCall 2 ∧
    argAt createSphereCall 0 = some (.str "root_body") ∧
    argAt addObjectToJointCall 2 = argAt createSphereCall 0 := by
  decide

/-- C10: the script passes exactly two configuration (integer-list)
arguments, each of length 7, and in each one the last four components
form a unit quaternion: the sum of their squares equals exactly 1 in
exact integer arithmetic. -/
theorem script_configs_unit_quaternion :
    scriptConfigs = [[0, 0, 0, 0, 0, 0, 1], [0, 0, 1, 0, 0, 0, 1]] ∧
    scriptConfigs.map (fun c => (c.length, sumSquares (quatPart c))) = [(7, 1), (7, 1)] := by
  decide

end HppCorba
